import Mathlib

/-!
Shallow embedding of `src/romulus_clock.py` (the RomulusClock engine):
the per-source fetch with retry/backoff (`_fetch_dexscreener_time`), the
fallback to the local clock (`_get_fallback_time`), the per-cycle state
update (`_update_clock`), the polling loop's error containment
(`_polling_loop`), the staleness check (`is_stale`) and the two read
queries (`get_clock_data` and the `/romulus-clock/health` route).

Timestamps (`datetime` values) are modelled as rationals counting seconds
since the epoch; `datetime.fromtimestamp(ms / 1000, tz=utc)` becomes exact
division by 1000.
-/

namespace RomulusClock

/-- A `datetime` instant: seconds since the Unix epoch, exact. -/
abbrev Instant := ℚ

/-- `self.max_retries = 3` (hardcoded in `__init__`). -/
def max_retries : Nat := 3

/-- `self.max_error_count = 5` (hardcoded in `__init__`). -/
def max_error_count : Nat := 5

/-- `datetime.fromtimestamp(timestamp_ms / 1000, tz=timezone.utc)`. -/
def datetime_fromtimestamp_ms (ms : ℤ) : Instant := (ms : ℚ) / 1000

/-- What one HTTP attempt inside `_fetch_dexscreener_time` can observe:
a 200 response carrying the (possibly absent) `pair.pairCreatedAt` field,
a non-200 status, an `asyncio.TimeoutError`, or any other caught exception. -/
inductive AttemptOutcome where
  | status200 (pairCreatedAt : Option ℤ)
  | badStatus (code : Nat)
  | timeout
  | exn
deriving DecidableEq

/-- The body of one loop iteration of `_fetch_dexscreener_time` up to the
`return market_time`: on a 200 response the field is read with
`pair_info.get('pairCreatedAt')` and tested by truthiness
(`if timestamp_ms:`), so an absent field and a `0` value both fail;
every other outcome only logs and falls through. -/
def attemptFetch : AttemptOutcome → Option Instant
  | .status200 (some ms) =>
      if ms ≠ 0 then some (datetime_fromtimestamp_ms ms) else none
  | .status200 none => none
  | .badStatus _ => none
  | .timeout => none
  | .exn => none

/-- Result of `_fetch_dexscreener_time`, instrumented with the number of
attempts the loop made and the total `asyncio.sleep` backoff it consumed. -/
structure FetchResult where
  marketTime : Option Instant
  attemptsMade : Nat
  sleepTotal : Nat
deriving DecidableEq

/-- The `for attempt in range(self.max_retries)` loop of
`_fetch_dexscreener_time`: `attempt` is the current 0-based index, `fuel`
the number of iterations left (`m - attempt`), `env` the network's response
to each attempt. On success the loop returns at once; otherwise it sleeps
`2 ** attempt` whenever `attempt < m - 1` and continues. -/
def fetchGo (env : Nat → AttemptOutcome) (m : Nat) : Nat → Nat → FetchResult
  | _, 0 => { marketTime := none, attemptsMade := 0, sleepTotal := 0 }
  | attempt, fuel + 1 =>
      match attemptFetch (env attempt) with
      | some t => { marketTime := some t, attemptsMade := 1, sleepTotal := 0 }
      | none =>
          let sleep := if attempt < m - 1 then 2 ^ attempt else 0
          let rest := fetchGo env m (attempt + 1) fuel
          { marketTime := rest.marketTime
            attemptsMade := 1 + rest.attemptsMade
            sleepTotal := sleep + rest.sleepTotal }

/-- `_fetch_dexscreener_time` for one source, run against network
behaviour `env` with retry budget `m`; returns `None` (here
`marketTime = none`) after exhausting all attempts. -/
def fetch_dexscreener_time (env : Nat → AttemptOutcome) (m : Nat) : FetchResult :=
  fetchGo env m 0 m

/-- The `ClockState` dataclass. -/
structure ClockState where
  market_time : Option Instant
  source : String
  last_updated : Option Instant
  error_count : Nat
  is_healthy : Bool
deriving DecidableEq

/-- `ClockState()` with the dataclass defaults — the state before the
first cycle. -/
def ClockState.init : ClockState :=
  { market_time := none
    source := "system"
    last_updated := none
    error_count := 0
    is_healthy := true }

/-- A network behaviour: for each `(chain_id, pair_address)` pair and each
attempt index, the outcome that attempt observes. -/
abbrev Net := String → String → Nat → AttemptOutcome

/-- The `for chain_id, pair_address in self.pair_list` loop of
`_update_clock`: fetch each pair in order and break on the first fetch
returning a (truthy, hence non-`None`) datetime. -/
def trySource (net : Net) : List (String × String) → Option Instant
  | [] => none
  | (chain_id, pair_address) :: rest =>
      match (fetch_dexscreener_time (net chain_id pair_address) max_retries).marketTime with
      | some t => some t
      | none => trySource net rest

/-- `_get_fallback_time`: `datetime.now(timezone.utc)` at fallback time. -/
def get_fallback_time (now : Instant) : Instant := now

/-- `_update_clock`: try the sources in order; on total failure take the
fallback time (read at instant `nf`) and increment `error_count`, on
success tag the result `"Dexscreener"` and reset `error_count` to 0;
always stamp `last_updated` with the wall clock at completion (`nu`) and
recompute `is_healthy` from the new `error_count`. -/
def update_clock (net : Net) (pair_list : List (String × String))
    (st : ClockState) (nf nu : Instant) : ClockState :=
  let fetched := trySource net pair_list
  let market_time : Option Instant :=
    match fetched with
    | some t => some t
    | none => some (get_fallback_time nf)
  let source : String :=
    match fetched with
    | some _ => "Dexscreener"
    | none => "system"
  let error_count : Nat :=
    match fetched with
    | some _ => 0
    | none => st.error_count + 1
  { market_time := market_time
    source := source
    last_updated := some nu
    error_count := error_count
    is_healthy := decide (error_count < max_error_count) }

/-- One iteration of `_polling_loop`'s `while self.running` body: either
`_update_clock` completes (a normal cycle, with its network behaviour and
the two wall-clock readings), or it raises an unexpected exception that the
`except` branch catches. -/
inductive PollInput where
  | cycle (net : Net) (pair_list : List (String × String)) (nf nu : Instant)
  | unexpectedError

/-- The body of one `_polling_loop` iteration: the new state together with
the `asyncio.sleep` duration before the next tick. The `except` branch
only logs and sleeps `poll_interval` — it does not touch `self.state`. -/
def poll_iterate (poll_interval : Nat) (st : ClockState) :
    PollInput → ClockState × Nat
  | .cycle net pair_list nf nu => (update_clock net pair_list st nf nu, poll_interval)
  | .unexpectedError => (st, poll_interval)

/-- The states a `RomulusClock`'s `self.state` can reach: the dataclass
default, followed by any number of `_update_clock` cycles (an
unexpected-error cycle leaves the state unchanged, so it needs no case). -/
inductive Reachable : ClockState → Prop
  | init : Reachable ClockState.init
  | cycle (net : Net) (pair_list : List (String × String)) (nf nu : Instant)
      (st : ClockState) (h : Reachable st) :
      Reachable (update_clock net pair_list st nf nu)

/-- `is_stale`: default the threshold to `poll_interval * 2`, report stale
when `last_updated` is unset, else compare the elapsed seconds against the
threshold. -/
def is_stale (st : ClockState) (poll_interval : Nat) (now : Instant)
    (threshold_seconds : Option ℤ) : Bool :=
  let t : ℤ := threshold_seconds.getD (poll_interval * 2)
  match st.last_updated with
  | none => true
  | some lu => decide ((t : ℚ) < now - lu)

/-- The JSON object returned by `get_clock_data`, with absent keys as
`none` (`error` and `errorCount` each appear in only one of the two
branches). -/
structure ClockData where
  error : Option String
  marketTime : Option Instant
  source : Option String
  lastUpdated : Option Instant
  isHealthy : Bool
  errorCount : Option Nat
deriving DecidableEq

/-- `get_clock_data`: `if not self.state.market_time or not
self.state.last_updated` (datetimes are always truthy, so this is a
`None` test) return the explicit error object; else the data object. -/
def get_clock_data (st : ClockState) : ClockData :=
  if st.market_time.isNone || st.last_updated.isNone then
    { error := some "Clock not initialized"
      marketTime := none
      source := none
      lastUpdated := none
      isHealthy := false
      errorCount := none }
  else
    { error := none
      marketTime := st.market_time
      source := some st.source
      lastUpdated := st.last_updated
      isHealthy := st.is_healthy
      errorCount := some st.error_count }

/-- The JSON object returned by the `/romulus-clock/health` route, with
absent keys as `none`. -/
structure HealthData where
  healthy : Bool
  error : Option String
  isStale : Option Bool
  errorCount : Option Nat
  lastUpdated : Option Instant
deriving DecidableEq

/-- The `/romulus-clock/health` route: when the global `ROMULUS_CLOCK` is
`None` it answers an explicit not-initialized error; otherwise it reports
`state.is_healthy and not is_stale()`, the staleness flag, the error count
and the (possibly `None`) `last_updated`, with no initialization check on
the state itself. -/
def get_clock_health (clock : Option (ClockState × Nat)) (now : Instant) : HealthData :=
  match clock with
  | none =>
      { healthy := false
        error := some "Clock not initialized"
        isStale := none
        errorCount := none
        lastUpdated := none }
  | some (st, poll_interval) =>
      { healthy := st.is_healthy && !(is_stale st poll_interval now none)
        error := none
        isStale := some (is_stale st poll_interval now none)
        errorCount := some st.error_count
        lastUpdated := st.last_updated }

/-! ### Helper lemmas -/

lemma sum_pow_two (n : Nat) : ∑ i in Finset.range n, 2 ^ i = 2 ^ n - 1 := by
  induction n with
  | zero => rfl
  | succ n ih =>
      rw [Finset.sum_range_succ, ih]
      have h1 : 0 < 2 ^ n := pow_pos (by norm_num) n
      have h2 : 2 ^ (n + 1) = 2 * 2 ^ n := by ring
      omega

lemma fetchGo_allFail (env : Nat → AttemptOutcome) (m f a : Nat)
    (ha : a + f = m) (hfail : ∀ i, a ≤ i → i < m → attemptFetch (env i) = none) :
    fetchGo env m a f =
      { marketTime := none, attemptsMade := f, sleepTotal := 2 ^ (m - 1) - 2 ^ a } := by
  induction f generalizing a with
  | zero =>
      have hle : 2 ^ (m - 1) ≤ 2 ^ a :=
        Nat.pow_le_pow_right (by norm_num) (by omega)
      simp [fetchGo, Nat.sub_eq_zero_of_le hle]
  | succ f ih =>
      have hfa : attemptFetch (env a) = none := hfail a le_rfl (by omega)
      have hrest := ih (a + 1) (by omega) (fun i h1 h2 => hfail i (by omega) h2)
      simp only [fetchGo, hfa, hrest]
      have h2a : 2 ^ (a + 1) = 2 * 2 ^ a := by ring
      by_cases hc : a < m - 1
      · have hle : 2 ^ (a + 1) ≤ 2 ^ (m - 1) :=
          Nat.pow_le_pow_right (by norm_num) (by omega)
        simp only [hc, if_true, FetchResult.mk.injEq]
        exact ⟨trivial, by omega, by omega⟩
      · have haeq : a = m - 1 := by omega
        have hle : 2 ^ (m - 1) ≤ 2 ^ a :=
          Nat.pow_le_pow_right (by norm_num) (by omega)
        simp only [hc, if_false, FetchResult.mk.injEq]
        exact ⟨trivial, by omega, by omega⟩

lemma fetchGo_congr (env env2 : Nat → AttemptOutcome) (m : Nat)
    (h : ∀ i, attemptFetch (env i) = attemptFetch (env2 i)) :
    ∀ f a, fetchGo env m a f = fetchGo env2 m a f := by
  intro f
  induction f with
  | zero => intro a; rfl
  | succ f ih =>
      intro a
      simp only [fetchGo, h a, ih (a + 1)]

/-! ### Concrete network behaviours used as claim inputs -/

/-- First attempt: 200 response without `pairCreatedAt`; later attempts:
200 response with `pairCreatedAt = 1700000000000`. -/
def env_missing_then_ok : Nat → AttemptOutcome := fun a =>
  if a = 0 then AttemptOutcome.status200 none
  else AttemptOutcome.status200 (some 1700000000000)

/-- Scenario A network: `chainA` times out on every attempt, every other
chain answers 200 with `pairCreatedAt = 1700000000000`. -/
def netA : Net := fun chain_id _ _ =>
  if chain_id = "chainA" then AttemptOutcome.timeout
  else AttemptOutcome.status200 (some 1700000000000)

/-- Scenario A source list. -/
def pairsA : List (String × String) := [("chainA", "addrX"), ("chainB", "addrY")]

/-- A network on which every attempt of every source gets HTTP 500. -/
def net_fail : Net := fun _ _ _ => AttemptOutcome.badStatus 500

/-! ### Claim theorems -/

/-- C8: for a source whose every attempt fails with a retryable error,
`_fetch_dexscreener_time` makes exactly `maxRetries` attempts, sleeps
`2^attemptIndex` between consecutive attempts for a total suspension of
`1 + 2 + ... + 2^(maxRetries-2)` time units, and returns a terminal
failure (`None`). -/
theorem retry_backoff_bound (env : Nat → AttemptOutcome) (m : Nat)
    (hfail : ∀ i, i < m → attemptFetch (env i) = none) :
    fetch_dexscreener_time env m =
      { marketTime := none
        attemptsMade := m
        sleepTotal := ∑ i in Finset.range (m - 1), 2 ^ i } := by
  have h := fetchGo_allFail env m m 0 (by omega) (fun i _ hi => hfail i hi)
  rw [fetch_dexscreener_time, h, sum_pow_two]
  norm_num

/-- C8 witness: a source that times out on all `max_retries = 3` attempts
makes 3 attempts and sleeps `1 + 2 = 3` time units in total. -/
theorem retry_backoff_bound_witness :
    fetch_dexscreener_time (fun _ => AttemptOutcome.timeout) 3 =
      { marketTime := none
        attemptsMade := 3
        sleepTotal := ∑ i in Finset.range (3 - 1), 2 ^ i } :=
  retry_backoff_bound (fun _ => AttemptOutcome.timeout) 3 (fun _ _ => rfl)

/-- C1 counterexample: a first attempt whose 200 response lacks
`pairCreatedAt` (MissingField) does NOT end the fetch for that source —
the loop sleeps the `2^0 = 1` backoff, retries, and the second attempt's
timestamp is returned (2 attempts consumed, not 1). -/
theorem missing_field_consumes_backoff :
    (fetch_dexscreener_time env_missing_then_ok max_retries).attemptsMade = 2 ∧
    (fetch_dexscreener_time env_missing_then_ok max_retries).sleepTotal = 1 ∧
    (fetch_dexscreener_time env_missing_then_ok max_retries).marketTime
      = some (datetime_fromtimestamp_ms 1700000000000) :=
  ⟨rfl, rfl, rfl⟩

/-- C1 corrected: a MissingField outcome is retried exactly like the
retryable outcomes — after a first attempt whose 200 response lacks
`pairCreatedAt`, the loop consumes the `2^0 = 1` backoff sleep, counts the
attempt, and continues with the remaining attempts. -/
theorem missing_field_is_retried (env : Nat → AttemptOutcome) (m : Nat)
    (h0 : env 0 = AttemptOutcome.status200 none) (hm : 2 ≤ m) :
    fetch_dexscreener_time env m =
      { marketTime := (fetchGo env m 1 (m - 1)).marketTime
        attemptsMade := 1 + (fetchGo env m 1 (m - 1)).attemptsMade
        sleepTotal := 1 + (fetchGo env m 1 (m - 1)).sleepTotal } := by
  obtain ⟨k, rfl⟩ : ∃ k, m = k + 1 := ⟨m - 1, by omega⟩
  have hfa : attemptFetch (env 0) = none := by rw [h0]; rfl
  have hk : 0 < k := by omega
  simp [fetch_dexscreener_time, fetchGo, hfa, hk]

/-- C1 corrected, witness: with a MissingField first attempt and a valid
second attempt, the fetch continues past the first attempt. -/
theorem missing_field_is_retried_witness :
    fetch_dexscreener_time env_missing_then_ok 3 =
      { marketTime := (fetchGo env_missing_then_ok 3 1 (3 - 1)).marketTime
        attemptsMade := 1 + (fetchGo env_missing_then_ok 3 1 (3 - 1)).attemptsMade
        sleepTotal := 1 + (fetchGo env_missing_then_ok 3 1 (3 - 1)).sleepTotal } :=
  missing_field_is_retried env_missing_then_ok 3 rfl (by norm_num)

/-- C2 counterexample: in Scenario A (chainA times out, chainB succeeds
with `pairCreatedAt = 1700000000000`) the published `source` is the
constant provider tag `"Dexscreener"`, not the entry identifier
`"chainB"`. -/
theorem scenarioA_source_is_provider_tag :
    (update_clock netA pairsA ClockState.init 0 1).source = "Dexscreener" ∧
    (update_clock netA pairsA ClockState.init 0 1).source ≠ "chainB" :=
  ⟨rfl, by decide⟩

/-- C2 corrected: in Scenario A the resulting state has `source =
"Dexscreener"` (the code never publishes the entry identifier),
`marketTime` equal to the UTC instant for epoch-millisecond
1700000000000, and `errorCount = 0`, whatever the previous state. -/
theorem scenarioA_amended (st : ClockState) (nf nu : Instant) :
    update_clock netA pairsA st nf nu =
      { market_time := some (datetime_fromtimestamp_ms 1700000000000)
        source := "Dexscreener"
        last_updated := some nu
        error_count := 0
        is_healthy := true } := by
  have h : trySource netA pairsA = some (datetime_fromtimestamp_ms 1700000000000) := rfl
  simp only [update_clock, h]
  rfl

/-- C3 counterexample: with the clock object present but the state still
uninitialized, `get_clock_data` does report the explicit error, but the
health route returns an ordinary report — no error marker, a null
`lastUpdated` — instead of a "not initialized" indication. -/
theorem health_query_not_initialized_cex :
    (get_clock_data ClockState.init).error = some "Clock not initialized" ∧
    (get_clock_health (some (ClockState.init, 10)) 100).error = none ∧
    (get_clock_health (some (ClockState.init, 10)) 100).lastUpdated = none ∧
    get_clock_health (some (ClockState.init, 10)) 100 ≠ get_clock_health none 100 :=
  ⟨rfl, rfl, rfl, by decide⟩

/-- C3 corrected: before the priming cycle completes only the get-state
query reports an explicit "not initialized" error; the health query does
so only when the clock object itself is absent, and for a present clock
with uninitialized state it returns an ordinary report (no error marker)
in which `healthy` is false and `lastUpdated` is null. -/
theorem uninitialized_queries (st : ClockState) (poll_interval : Nat)
    (now : Instant) (h : st.market_time = none ∨ st.last_updated = none) :
    (get_clock_data st).error = some "Clock not initialized" ∧
    (get_clock_health none now).error = some "Clock not initialized" ∧
    (get_clock_health (some (st, poll_interval)) now).error = none ∧
    (st.last_updated = none →
      (get_clock_health (some (st, poll_interval)) now).healthy = false ∧
      (get_clock_health (some (st, poll_interval)) now).lastUpdated = none) := by
  refine ⟨?_, rfl, rfl, fun hlu => ⟨?_, ?_⟩⟩
  · have hb : (st.market_time.isNone || st.last_updated.isNone) = true := by
      rcases h with h | h <;> simp [h]
    simp [get_clock_data, hb]
  · simp [get_clock_health, is_stale, hlu]
  · simp [get_clock_health, hlu]

/-- C3 corrected, witness: the two queries at the dataclass-default
state. -/
theorem uninitialized_queries_witness :
    (get_clock_data ClockState.init).error = some "Clock not initialized" ∧
    (get_clock_health none (100 : Instant)).error = some "Clock not initialized" ∧
    (get_clock_health (some (ClockState.init, 10)) (100 : Instant)).error = none ∧
    (ClockState.init.last_updated = none →
      (get_clock_health (some (ClockState.init, 10)) (100 : Instant)).healthy = false ∧
      (get_clock_health (some (ClockState.init, 10)) (100 : Instant)).lastUpdated = none) :=
  uninitialized_queries ClockState.init 10 100 (Or.inl rfl)

/-- C4 counterexample: a cycle in which `_update_clock` raises an
unexpected error leaves the state exactly as it was — in particular
`errorCount` is NOT incremented the way a fallback cycle would have
incremented it. -/
theorem unexpected_error_state_unchanged_cex :
    (poll_iterate 10 ClockState.init PollInput.unexpectedError).1 = ClockState.init ∧
    (poll_iterate 10 ClockState.init PollInput.unexpectedError).1.error_count ≠
      ClockState.init.error_count + 1 :=
  ⟨rfl, by decide⟩

/-- C4 corrected: an unexpected error is caught at the cycle boundary and
the loop always reschedules the next tick after `pollInterval`, but no
ClockState update is applied for that cycle: the state (its `errorCount`
included) is left unchanged, not updated as in a fallback cycle. -/
theorem unexpected_error_containment (poll_interval : Nat) (st : ClockState) :
    poll_iterate poll_interval st PollInput.unexpectedError = (st, poll_interval) ∧
    ∀ input, (poll_iterate poll_interval st input).2 = poll_interval := by
  refine ⟨rfl, fun input => ?_⟩
  cases input <;> rfl

/-- C5: in every cycle, a total source failure increments `errorCount` by
exactly 1 over its pre-cycle value, and a success via any real source
resets it to exactly 0. -/
theorem error_count_dynamics (net : Net) (pair_list : List (String × String))
    (st : ClockState) (nf nu : Instant) :
    (trySource net pair_list = none →
      (update_clock net pair_list st nf nu).error_count = st.error_count + 1) ∧
    (∀ t, trySource net pair_list = some t →
      (update_clock net pair_list st nf nu).error_count = 0) := by
  constructor
  · intro h
    simp only [update_clock, h]
  · intro t h
    simp only [update_clock, h]

/-- C5 witness: a fully failing cycle increments the counter from 0 to 1;
the Scenario A cycle resets it to 0. -/
theorem error_count_dynamics_witness :
    (update_clock netA [] ClockState.init 0 1).error_count
      = ClockState.init.error_count + 1 ∧
    (update_clock netA pairsA ClockState.init 0 1).error_count = 0 :=
  ⟨(error_count_dynamics netA [] ClockState.init 0 1).1 rfl,
   (error_count_dynamics netA pairsA ClockState.init 0 1).2
     (datetime_fromtimestamp_ms 1700000000000) rfl⟩

/-- C6: in every reachable ClockState, `isHealthy` is false iff
`errorCount >= maxErrorCount` (5), and `isHealthy` is exactly the
comparison of `errorCount` against the threshold — never set
independently. -/
theorem health_threshold (st : ClockState) (h : Reachable st) :
    (st.is_healthy = false ↔ max_error_count ≤ st.error_count) ∧
    st.is_healthy = decide (st.error_count < max_error_count) := by
  have key : st.is_healthy = decide (st.error_count < max_error_count) := by
    induction h with
    | init => rfl
    | cycle net pair_list nf nu st h ih => rfl
  refine ⟨?_, key⟩
  rw [key]
  simp [Nat.not_lt]

/-- C6 witness: the invariant at the initial (reachable) state. -/
theorem health_threshold_witness :
    (ClockState.init.is_healthy = false ↔
      max_error_count ≤ ClockState.init.error_count) ∧
    ClockState.init.is_healthy
      = decide (ClockState.init.error_count < max_error_count) :=
  health_threshold ClockState.init Reachable.init

/-- C7: when every source of the list fails in a cycle, the resulting
state has `source = "system"` and a present `marketTime` equal to the
fallback wall-clock reading, hence within the cycle's duration (`tol`) of
the wall clock at cycle completion; the fallback itself always succeeds. -/
theorem fallback_correctness (net : Net) (pair_list : List (String × String))
    (st : ClockState) (nf nu tol : Instant)
    (h : trySource net pair_list = none) (h1 : nf ≤ nu) (h2 : nu - nf ≤ tol) :
    (update_clock net pair_list st nf nu).source = "system" ∧
    ∃ mt, (update_clock net pair_list st nf nu).market_time = some mt ∧
      0 ≤ nu - mt ∧ nu - mt ≤ tol := by
  refine ⟨by simp only [update_clock, h], nf,
    by simp only [update_clock, h, get_fallback_time], ?_, h2⟩
  linarith

/-- C7 witness: a cycle on which both sources answer HTTP 500 on every
attempt falls back to `source = "system"` with the fallback instant. -/
theorem fallback_correctness_witness :
    (update_clock net_fail pairsA ClockState.init 0 1).source = "system" ∧
    ∃ mt, (update_clock net_fail pairsA ClockState.init 0 1).market_time = some mt ∧
      0 ≤ (1 : Instant) - mt ∧ (1 : Instant) - mt ≤ 2 :=
  fallback_correctness net_fail pairsA ClockState.init 0 1 2 rfl
    (by norm_num) (by norm_num)

/-- C9: `is_stale` is true iff `lastUpdated` is absent or
`now - lastUpdated` exceeds the threshold, which defaults to
`2 × pollInterval`; under the default a state last updated
`3 × pollInterval` ago is stale and one updated `1 × pollInterval` ago is
not. -/
theorem is_stale_spec (st : ClockState) (poll_interval : Nat) (now : Instant)
    (threshold_seconds : Option ℤ) (hpi : 0 < poll_interval) :
    (is_stale st poll_interval now threshold_seconds = true ↔
      st.last_updated = none ∨ ∃ lu, st.last_updated = some lu ∧
        ((threshold_seconds.getD (poll_interval * 2) : ℤ) : ℚ) < now - lu) ∧
    is_stale { st with last_updated := some (now - 3 * poll_interval) }
      poll_interval now none = true ∧
    is_stale { st with last_updated := some (now - 1 * poll_interval) }
      poll_interval now none = false := by
  have hq : (0 : ℚ) < (poll_interval : ℚ) := by exact_mod_cast hpi
  refine ⟨?_, ?_, ?_⟩
  · cases hlu : st.last_updated with
    | none => simp [is_stale, hlu]
    | some lu => simp [is_stale, hlu]
  · simp only [is_stale, eq_self_iff_true, decide_eq_true_eq, Option.getD]
    push_cast
    linarith
  · simp only [is_stale, eq_self_iff_true, decide_eq_false_iff_not, not_lt, Option.getD]
    push_cast
    linarith

/-- C9 witness: the staleness spec at the initial state with
`pollInterval = 10` and `now = 100`. -/
theorem is_stale_spec_witness :
    (is_stale ClockState.init 10 100 none = true ↔
      ClockState.init.last_updated = none ∨ ∃ lu, ClockState.init.last_updated = some lu ∧
        (((none : Option ℤ).getD ((10 : Nat) * 2) : ℤ) : ℚ) < 100 - lu) ∧
    is_stale { ClockState.init with
      last_updated := some ((100 : Instant) - 3 * (10 : Nat)) } 10 100 none = true ∧
    is_stale { ClockState.init with
      last_updated := some ((100 : Instant) - 1 * (10 : Nat)) } 10 100 none = false :=
  is_stale_spec ClockState.init 10 100 none (by norm_num)

/-- C10: a 200 response whose `pairCreatedAt` equals 0 is classified
exactly as if the field were absent — the truthiness test `if
timestamp_ms:` rejects it, no timestamp is returned for that attempt, and
the whole fetch behaves identically to the field-absent case. -/
theorem zero_timestamp_as_missing (env env2 : Nat → AttemptOutcome) (m a : Nat)
    (ha : env a = AttemptOutcome.status200 (some 0))
    (ha2 : env2 a = AttemptOutcome.status200 none)
    (hrest : ∀ i, i ≠ a → env2 i = env i) :
    attemptFetch (env a) = none ∧
    fetch_dexscreener_time env m = fetch_dexscreener_time env2 m := by
  have hpt : ∀ i, attemptFetch (env i) = attemptFetch (env2 i) := by
    intro i
    by_cases hi : i = a
    · subst hi
      rw [ha, ha2]
      rfl
    · rw [hrest i hi]
  exact ⟨by rw [ha]; rfl, fetchGo_congr env env2 m hpt m 0⟩

/-- Attempt 0 answers 200 with `pairCreatedAt = 0`, later attempts time
out. -/
def env_zero_ts : Nat → AttemptOutcome := fun a =>
  if a = 0 then AttemptOutcome.status200 (some 0) else AttemptOutcome.timeout

/-- Attempt 0 answers 200 without `pairCreatedAt`, later attempts time
out. -/
def env_absent_ts : Nat → AttemptOutcome := fun a =>
  if a = 0 then AttemptOutcome.status200 none else AttemptOutcome.timeout

/-- C10 witness: a concrete fetch where attempt 0 carries
`pairCreatedAt = 0` behaves exactly like the one where the field is
absent. -/
theorem zero_timestamp_as_missing_witness :
    attemptFetch (env_zero_ts 0) = none ∧
    fetch_dexscreener_time env_zero_ts 3 = fetch_dexscreener_time env_absent_ts 3 :=
  zero_timestamp_as_missing env_zero_ts env_absent_ts 3 0 rfl rfl
    (fun i hi => by simp [env_zero_ts, env_absent_ts, hi])

end RomulusClock
